import Mathlib

/-!
Shallow embedding of the rule-based decision engine of the repository
(src/agent.py, MarketAgent.analyze_market and MarketAgent.hold helper,
together with the configuration values of src/config.py that it reads).

Numbers are modelled by the rationals.  The single transcendental
primitive of the source, math.sqrt, is passed in as an explicit function
parameter sqrtFn so that the rest of the arithmetic stays exact and
executable; every theorem below either holds for an arbitrary sqrtFn or
instantiates it with a concrete rational approximation.
-/

namespace Prediction

/-- Volatility regime returned by the alpha monitor (low / medium / high). -/
inductive Regime
  | low
  | medium
  | high
deriving DecidableEq, Repr

/-- Result of alpha_monitor.get_fair_value(strike, secs_left) in src/agent.py line 51. -/
structure FairValue where
  fair_yes_cents : ℤ
  fair_yes_prob : ℚ
  btc_vs_strike : ℚ
deriving DecidableEq, Repr

/-- Result of alpha_monitor.get_volatility() in src/agent.py line 57. -/
structure Volatility where
  regime : Regime
  vol_dollar_per_min : ℚ
deriving DecidableEq, Repr

/-- Result of alpha_monitor.get_price_velocity() in src/agent.py line 61. -/
structure Velocity where
  velocity_1m : ℚ
  direction_1m : ℚ
  price_change_1m : ℚ
deriving DecidableEq, Repr

/-- The alpha-signal provider consulted by analyze_market.  get_fair_value is a
function of the strike and the seconds remaining, exactly as it is called in the
source; the other two calls take no argument. -/
structure AlphaMonitor where
  get_fair_value : ℚ → ℚ → FairValue
  get_volatility : Volatility
  get_price_velocity : Velocity

/-- The market_data dict of analyze_market; each field is optional because the
source reads it with dict.get and a default (src/agent.py lines 42 to 45 and 186). -/
structure MarketData where
  strike_price : Option ℚ
  seconds_to_close : Option ℚ
  best_bid : Option ℤ
  best_ask : Option ℤ
  ticker : Option String
deriving DecidableEq

/-- The configuration values of src/config.py read by analyze_market. -/
structure Config where
  RULE_SIT_OUT_LOW_VOL : Bool
  MIN_EDGE_CENTS : ℤ
  TREND_FOLLOW_VELOCITY : ℚ
  RULE_MIN_CONFIDENCE : ℚ
deriving DecidableEq

/-- The decision field of the returned dict. -/
inductive Action
  | BUY_YES
  | BUY_NO
  | HOLD
deriving DecidableEq, Repr

/-- One line of the reasoning trace built in src/agent.py lines 101 to 106, 118,
119, 163, 168; the numeric payloads are the values the f-strings interpolate. -/
inductive ReasonLine
  | btcVsStrike (above : Bool) (dist : ℚ)
  | fair (cents : ℤ) (prob : ℚ)
  | vol (regime : Regime) (dpm : ℚ)
  | trend (change : ℚ)
  | time (secs : ℚ) (dist : ℚ) (yesFactor : ℚ) (noFactor : ℚ)
  | yesEdge (edge : ℤ) (fairCents : ℤ) (cost : ℤ)
  | noEdge (edge : ℤ) (fairCents : ℤ) (cost : ℤ)
  | buyYes (score : ℚ) (edge : ℤ) (trendOK : Bool)
  | buyNo (score : ℚ) (edge : ℤ) (trendOK : Bool)
deriving DecidableEq

/-- True exactly on the two edge report lines of src/agent.py lines 118 and 119. -/
def ReasonLine.isEdgeLine : ReasonLine → Bool
  | .yesEdge _ _ _ => true
  | .noEdge _ _ _ => true
  | _ => false

/-- True exactly on the trend report line of src/agent.py line 105. -/
def ReasonLine.isTrendLine : ReasonLine → Bool
  | .trend _ => true
  | _ => false

/-- The reasoning string of the returned dict, kept structured: the constructor
records which fixed text framed the joined reason lines. -/
inductive Reasoning
  | noAlpha
  | lowVolSitOut (ls : List ReasonLine)
  | noEdgeHold (ls : List ReasonLine)
  | lowConfidence (conf : ℚ) (ls : List ReasonLine)
  | trade (ls : List ReasonLine)
deriving DecidableEq

/-- The reason lines carried by a Reasoning value. -/
def Reasoning.lines : Reasoning → List ReasonLine
  | .noAlpha => []
  | .lowVolSitOut ls => ls
  | .noEdgeHold ls => ls
  | .lowConfidence _ ls => ls
  | .trade ls => ls

/-- The dict returned by analyze_market: decision, confidence, reasoning. -/
structure Decision where
  decision : Action
  confidence : ℚ
  reasoning : Reasoning
deriving DecidableEq

/-- One provider method call, recorded in source order. -/
inductive ProviderCall
  | fairValue (strike : ℚ) (secs_left : ℚ)
  | volatility
  | priceVelocity
deriving DecidableEq

/-- One record_decision call to the persistence collaborator (src/agent.py lines 185 to 190). -/
structure RecordCall where
  market_id : Option String
  decision : Action
  confidence : ℚ
  reasoning : Reasoning
deriving DecidableEq

/-- Payload of a log_event call: hold logs come from the hold helper, trade logs
from line 191; both interpolate the reasoning into the message. -/
inductive LogMsg
  | hold (reasoning : Reasoning)
  | trade (decision : Action) (confidence : ℚ) (reasoning : Reasoning)
deriving DecidableEq

/-- One log_event call to the logging collaborator. -/
structure LogCall where
  category : String
  message : LogMsg
deriving DecidableEq

/-- Everything one call of analyze_market produces: the returned dict, the new
value of self.last_decision, and the traces of provider calls, record_decision
calls and log_event calls. -/
structure AnalyzeResult where
  result : Decision
  last_decision : Decision
  provider_calls : List ProviderCall
  records : List RecordCall
  logs : List LogCall
deriving DecidableEq

/-- MarketAgent.hold helper (src/agent.py lines 194 to 199): build the HOLD
dict, overwrite last_decision with it, log one RULES event, return it. -/
def hold_result (provider_calls : List ProviderCall) (reasoning : Reasoning)
    (confidence : ℚ) : AnalyzeResult :=
  { result := ⟨Action.HOLD, confidence, reasoning⟩
    last_decision := ⟨Action.HOLD, confidence, reasoning⟩
    provider_calls := provider_calls
    records := []
    logs := [⟨"RULES", LogMsg.hold reasoning⟩] }

/-- Line 70 of src/agent.py: raw_time_factor = min(1.0, max(0.0, secs_left / 900)). -/
def raw_time_factor_of (secs_left : ℚ) : ℚ := min 1 (max 0 (secs_left / 900))

/-- Line 74 of src/agent.py: keep the observed magnitude when it is at least 50,
otherwise substitute 200. -/
def vol_floor (v : ℚ) : ℚ := if v ≥ 50 then v else 200

/-- Line 75 of src/agent.py: expected_move = vol_dpm * sqrt(max(secs_left, 1) / 60). -/
def expected_move_of (sqrtFn : ℚ → ℚ) (vol_dpm secs_left : ℚ) : ℚ :=
  vol_dpm * sqrtFn (max secs_left 1 / 60)

/-- Line 76 of src/agent.py: distance_ratio = min(10, abs(btc_vs_strike) / max(expected_move, 50)). -/
def distance_ratio_of (btc_vs_strike expected_move : ℚ) : ℚ :=
  min 10 (|btc_vs_strike| / max expected_move 50)

/-- Lines 79 to 90 of src/agent.py: the (winning_boost, losing_factor) pair of
the three distance regimes. -/
def time_factors (distance_ratio raw_time_factor : ℚ) : ℚ × ℚ :=
  if distance_ratio > 1.5 then
    (1 + (1 - raw_time_factor) * 0.75, raw_time_factor * 0.3)
  else if distance_ratio > 1 then
    (1 + (1 - raw_time_factor) * 0.4, raw_time_factor * 0.6)
  else
    (raw_time_factor, raw_time_factor)

/-- Lines 93 to 98 of src/agent.py: give the winning boost to YES when
btc_vs_strike is positive, otherwise to NO; the result is the pair
(yes_time_factor, no_time_factor). -/
def directional_factors (btc_vs_strike : ℚ) (factors : ℚ × ℚ) : ℚ × ℚ :=
  if btc_vs_strike > 0 then (factors.1, factors.2) else (factors.2, factors.1)

/-- Lines 132 to 149 of src/agent.py: score one side.  A side scores 0 unless
its edge meets the effective minimum; otherwise edge/100, plus 0.10 when the
trend confirms the side, plus a further 0.05 when the high volatility bonus
condition holds, all multiplied by the time factor of that side. -/
def side_score (edge min_edge : ℤ) (trend_confirms high_vol_bonus : Bool)
    (time_factor : ℚ) : ℚ :=
  if edge ≥ min_edge then
    ((edge : ℚ) / 100 +
      (if trend_confirms then 0.10 + (if high_vol_bonus then 0.05 else 0) else 0))
      * time_factor
  else 0

/-- Lines 156 and 157 of src/agent.py: diagnostic potential confidence of one
side, reported when the call holds for lack of edge. -/
def potential_conf (edge : ℤ) (time_factor : ℚ) : ℚ :=
  if edge > 0 then min 0.95 (0.45 + max 0 ((edge : ℚ) / 100) * time_factor) else 0

/-- Every named intermediate value of src/agent.py lines 42 to 158, so that the
theorems below can speak about them by name. -/
structure Intermediates where
  strike : ℚ
  secs_left : ℚ
  best_bid : ℤ
  best_ask : ℤ
  fair_yes_cents : ℤ
  fair_yes_prob : ℚ
  btc_vs_strike : ℚ
  regime : Regime
  vol_dollar_per_min : ℚ
  vel_1m : ℚ
  dir_1m : ℚ
  change_1m : ℚ
  raw_time_factor : ℚ
  expected_move : ℚ
  distance_ratio : ℚ
  yes_time_factor : ℚ
  no_time_factor : ℚ
  yes_cost : ℤ
  no_cost : ℤ
  yes_edge : ℤ
  no_edge : ℤ
  min_edge : ℤ
  trend_confirms_yes : Bool
  trend_confirms_no : Bool
  high_vol_bonus : Bool
  yes_score : ℚ
  no_score : ℚ
  potential_yes_conf : ℚ
  potential_no_conf : ℚ
  best_potential : ℚ
deriving DecidableEq

/-- The pure computation of src/agent.py lines 42 to 158 (everything up to the
arbitration), translated clause by clause from the source. -/
def compute (sqrtFn : ℚ → ℚ) (cfg : Config) (market_data : MarketData)
    (alpha : AlphaMonitor) : Intermediates :=
  let strike := market_data.strike_price.getD 0
  let secs_left := market_data.seconds_to_close.getD 0
  let best_bid := market_data.best_bid.getD 0
  let best_ask := market_data.best_ask.getD 100
  let fv := alpha.get_fair_value strike secs_left
  let vol := alpha.get_volatility
  let velocity := alpha.get_price_velocity
  let raw_time_factor := raw_time_factor_of secs_left
  let vol_dpm := vol_floor vol.vol_dollar_per_min
  let expected_move := expected_move_of sqrtFn vol_dpm secs_left
  let distance_ratio := distance_ratio_of fv.btc_vs_strike expected_move
  let factors := time_factors distance_ratio raw_time_factor
  let directional := directional_factors fv.btc_vs_strike factors
  let yes_cost := best_ask
  let no_cost := 100 - best_bid
  let yes_edge := fv.fair_yes_cents - yes_cost
  let no_edge := (100 - fv.fair_yes_cents) - no_cost
  let min_edge :=
    if vol.regime = Regime.high then max 3 (cfg.MIN_EDGE_CENTS - 3)
    else cfg.MIN_EDGE_CENTS
  let trend_confirms_yes := decide (velocity.direction_1m > 0)
  let trend_confirms_no := decide (velocity.direction_1m < 0)
  let high_vol_bonus :=
    decide (vol.regime = Regime.high ∧ |velocity.velocity_1m| > cfg.TREND_FOLLOW_VELOCITY)
  let yes_score := side_score yes_edge min_edge trend_confirms_yes high_vol_bonus directional.1
  let no_score := side_score no_edge min_edge trend_confirms_no high_vol_bonus directional.2
  let potential_yes_conf := potential_conf yes_edge directional.1
  let potential_no_conf := potential_conf no_edge directional.2
  { strike := strike
    secs_left := secs_left
    best_bid := best_bid
    best_ask := best_ask
    fair_yes_cents := fv.fair_yes_cents
    fair_yes_prob := fv.fair_yes_prob
    btc_vs_strike := fv.btc_vs_strike
    regime := vol.regime
    vol_dollar_per_min := vol.vol_dollar_per_min
    vel_1m := velocity.velocity_1m
    dir_1m := velocity.direction_1m
    change_1m := velocity.price_change_1m
    raw_time_factor := raw_time_factor
    expected_move := expected_move
    distance_ratio := distance_ratio
    yes_time_factor := directional.1
    no_time_factor := directional.2
    yes_cost := yes_cost
    no_cost := no_cost
    yes_edge := yes_edge
    no_edge := no_edge
    min_edge := min_edge
    trend_confirms_yes := trend_confirms_yes
    trend_confirms_no := trend_confirms_no
    high_vol_bonus := high_vol_bonus
    yes_score := yes_score
    no_score := no_score
    potential_yes_conf := potential_yes_conf
    potential_no_conf := potential_no_conf
    best_potential := max potential_yes_conf potential_no_conf }

/-- The five reason lines appended in src/agent.py lines 101 to 106, before the
low volatility sit-out check. -/
def pre_edge_reasons (c : Intermediates) : List ReasonLine :=
  [ReasonLine.btcVsStrike (decide (c.btc_vs_strike > 0)) |c.btc_vs_strike|,
   ReasonLine.fair c.fair_yes_cents c.fair_yes_prob,
   ReasonLine.vol c.regime c.vol_dollar_per_min,
   ReasonLine.trend c.change_1m,
   ReasonLine.time c.secs_left c.distance_ratio c.yes_time_factor c.no_time_factor]

/-- The two edge report lines appended in src/agent.py lines 118 and 119, after
the sit-out check. -/
def edge_reasons (c : Intermediates) : List ReasonLine :=
  [ReasonLine.yesEdge c.yes_edge c.fair_yes_cents c.yes_cost,
   ReasonLine.noEdge c.no_edge (100 - c.fair_yes_cents) c.no_cost]

/-- The three provider calls made in src/agent.py lines 51, 57 and 61, in order. -/
def provider_calls_of (market_data : MarketData) : List ProviderCall :=
  [ProviderCall.fairValue (market_data.strike_price.getD 0)
    (market_data.seconds_to_close.getD 0),
   ProviderCall.volatility, ProviderCall.priceVelocity]

/-- Lines 174 to 192 of src/agent.py: apply the confidence gate to the winning
side, then either hold with the low confidence reason or emit the decision,
overwrite last_decision, record it and log it. -/
def emit_result (cfg : Config) (provider_calls : List ProviderCall)
    (market_id : Option String) (decision : Action) (confidence : ℚ)
    (reasons : List ReasonLine) : AnalyzeResult :=
  if confidence < cfg.RULE_MIN_CONFIDENCE then
    hold_result provider_calls (Reasoning.lowConfidence confidence reasons) confidence
  else
    { result := ⟨decision, confidence, Reasoning.trade reasons⟩
      last_decision := ⟨decision, confidence, Reasoning.trade reasons⟩
      provider_calls := provider_calls
      records := [⟨market_id, decision, confidence, Reasoning.trade reasons⟩]
      logs := [⟨"RULES", LogMsg.trade decision confidence (Reasoning.trade reasons)⟩] }

/-- Body of analyze_market once the provider is known to be present: the strike
guard, the signal pipeline, the sit-out check, the arbitration and the emission
(src/agent.py lines 42 to 192). -/
def analyze_with (sqrtFn : ℚ → ℚ) (cfg : Config) (market_data : MarketData)
    (alpha : AlphaMonitor) : AnalyzeResult :=
  if market_data.strike_price.getD 0 ≤ 0 then
    hold_result [] Reasoning.noAlpha 0
  else
    let c := compute sqrtFn cfg market_data alpha
    let calls := provider_calls_of market_data
    let reasons := pre_edge_reasons c
    if cfg.RULE_SIT_OUT_LOW_VOL = true ∧ c.regime = Regime.low then
      hold_result calls (Reasoning.lowVolSitOut reasons) 0
    else
      let reasons := reasons ++ edge_reasons c
      if c.yes_score > c.no_score ∧ c.yes_score > 0 then
        emit_result cfg calls market_data.ticker Action.BUY_YES
          (min 0.95 (0.45 + c.yes_score))
          (reasons ++ [ReasonLine.buyYes c.yes_score c.yes_edge c.trend_confirms_yes])
      else if c.no_score > c.yes_score ∧ c.no_score > 0 then
        emit_result cfg calls market_data.ticker Action.BUY_NO
          (min 0.95 (0.45 + c.no_score))
          (reasons ++ [ReasonLine.buyNo c.no_score c.no_edge c.trend_confirms_no])
      else
        hold_result calls (Reasoning.noEdgeHold reasons) c.best_potential

/-- MarketAgent.analyze_market of src/agent.py: the guard of line 47 sends a
missing provider (and, inside analyze_with, a missing or non-positive strike)
to the fixed diagnostic hold; otherwise the full pipeline runs. -/
def analyze_market (sqrtFn : ℚ → ℚ) (cfg : Config) (market_data : MarketData) :
    Option AlphaMonitor → AnalyzeResult
  | none => hold_result [] Reasoning.noAlpha 0
  | some alpha => analyze_with sqrtFn cfg market_data alpha

/-! Definitions transcribed from the words of the spec (section 4.4), used only
to compare the code translation above against the specified formulas. -/

/-- Transcribed from the spec: clamp(x, lo, hi). -/
def clamp (x lo hi : ℚ) : ℚ := max lo (min hi x)

/-- Transcribed from the spec, section 4.4: the volatility magnitude is
replaced by 200 whenever the observed value is below 50. -/
def spec_vol_floor (v : ℚ) : ℚ := if v < 50 then 200 else v

/-- Transcribed from the spec, section 4.4: raw_time_factor =
clamp(seconds_left / 900, 0, 1). -/
def spec_raw_time_factor (secs_left : ℚ) : ℚ := clamp (secs_left / 900) 0 1

/-- Transcribed from the spec, section 4.4: expected_move =
vol_dollar_per_min * sqrt(max(seconds_left, 1) / 60), on the floored magnitude. -/
def spec_expected_move (sqrtFn : ℚ → ℚ) (vol_dpm secs_left : ℚ) : ℚ :=
  vol_dpm * sqrtFn (max secs_left 1 / 60)

/-- Transcribed from the spec, section 4.4: distance_ratio =
clamp(abs(btc_vs_strike) / max(expected_move, 50), 0, 10). -/
def spec_distance_ratio (btc_vs_strike expected_move : ℚ) : ℚ :=
  clamp (|btc_vs_strike| / max expected_move 50) 0 10

/-- Transcribed from the spec, section 4.4: the three rows of the
(winning_boost, losing_factor) table, with thresholds 1.5 and 1.0. -/
def spec_time_factors (distance_ratio raw_time_factor : ℚ) : ℚ × ℚ :=
  if distance_ratio > 1.5 then
    (1 + (1 - raw_time_factor) * 0.75, raw_time_factor * 0.3)
  else if distance_ratio > 1.0 then
    (1 + (1 - raw_time_factor) * 0.4, raw_time_factor * 0.6)
  else
    (raw_time_factor, raw_time_factor)

/-! Concrete closed instances used by the witnesses and counterexamples below.
sqrtC is a constant rational stand-in for math.sqrt; the branch decisions of
the closed instances depend only on the distance regime it induces, and each
instance states the regime it lands in explicitly. -/

/-- Constant stand-in for math.sqrt on the closed instances. -/
def sqrtC : ℚ → ℚ := fun _ => 2/5

/-- Configuration with the default values of src/config.py: sit out on low
volatility, minimum edge 3 cents, trend follow velocity 2, minimum
confidence 0.6. -/
def cfgA : Config := ⟨true, 3, 2, 0.6⟩

/-- Scenario A snapshot of the spec: strike 50000, 800 seconds left, best bid
40, best ask 45. -/
def mdA : MarketData := ⟨some 50000, some 800, some 40, some 45, some "T"⟩

/-- Scenario A provider values: fair 55 cents, BTC 30 dollars above strike,
medium volatility at 250 dollars per minute, trend up. -/
def alphaA : AlphaMonitor :=
  ⟨fun _ _ => ⟨55, 0.55, 30⟩, ⟨Regime.medium, 250⟩, ⟨1, 1, 50⟩⟩

/-- Scenario B provider values: as alphaA but the volatility regime is low. -/
def alphaLow : AlphaMonitor :=
  ⟨fun _ _ => ⟨55, 0.55, 30⟩, ⟨Regime.low, 100⟩, ⟨1, 1, 50⟩⟩

/-- Configuration equal to cfgA except that the minimum confidence is 0.3, the
smallest value the runtime validation range of src/config.py line 141 admits. -/
def cfgGate03 : Config := ⟨true, 3, 2, 0.3⟩

/-- Scenario C snapshot: 10 seconds left, best bid 99, best ask 100. -/
def mdScenC : MarketData := ⟨some 50000, some 10, some 99, some 100, some "T"⟩

/-- Scenario C provider values: fair 50 cents, BTC 1000 dollars above strike,
medium volatility at 60 dollars per minute, trend down. -/
def alphaScenC : AlphaMonitor :=
  ⟨fun _ _ => ⟨50, 1/2, 1000⟩, ⟨Regime.medium, 60⟩, ⟨-3, -1, -5⟩⟩

/-- Configuration with MIN_EDGE_CENTS = -15, outside the validated range of
src/config.py line 138 but expressible through the unvalidated initial
environment read of line 96. -/
def cfgNegEdge : Config := ⟨false, -15, 2, 0.6⟩

/-- Snapshot with best ask 65, 450 seconds left. -/
def mdAsk65 : MarketData := ⟨some 50000, some 450, some 40, some 65, some "T"⟩

/-- Snapshot with best ask 66, 450 seconds left. -/
def mdAsk66 : MarketData := ⟨some 50000, some 450, some 40, some 66, some "T"⟩

/-- Provider values with no trend, fair 50 cents, BTC 30 dollars above strike. -/
def alphaFlat : AlphaMonitor :=
  ⟨fun _ _ => ⟨50, 1/2, 30⟩, ⟨Regime.medium, 250⟩, ⟨0, 0, 0⟩⟩

/-! Definitional projection lemmas relating the fields of compute to the helper
functions, so that later proofs never have to unfold compute itself. -/

theorem compute_secs_left (sqrtFn : ℚ → ℚ) (cfg : Config) (md : MarketData) (a : AlphaMonitor) :
    (compute sqrtFn cfg md a).secs_left = md.seconds_to_close.getD 0 := rfl

theorem compute_raw_time_factor (sqrtFn : ℚ → ℚ) (cfg : Config) (md : MarketData)
    (a : AlphaMonitor) :
    (compute sqrtFn cfg md a).raw_time_factor =
      raw_time_factor_of (md.seconds_to_close.getD 0) := rfl

theorem compute_btc_vs_strike (sqrtFn : ℚ → ℚ) (cfg : Config) (md : MarketData)
    (a : AlphaMonitor) :
    (compute sqrtFn cfg md a).btc_vs_strike =
      (a.get_fair_value (md.strike_price.getD 0) (md.seconds_to_close.getD 0)).btc_vs_strike :=
  rfl

theorem compute_regime (sqrtFn : ℚ → ℚ) (cfg : Config) (md : MarketData) (a : AlphaMonitor) :
    (compute sqrtFn cfg md a).regime = a.get_volatility.regime := rfl

theorem compute_expected_move (sqrtFn : ℚ → ℚ) (cfg : Config) (md : MarketData)
    (a : AlphaMonitor) :
    (compute sqrtFn cfg md a).expected_move =
      expected_move_of sqrtFn (vol_floor a.get_volatility.vol_dollar_per_min)
        (md.seconds_to_close.getD 0) := rfl

theorem compute_distance_ratio (sqrtFn : ℚ → ℚ) (cfg : Config) (md : MarketData)
    (a : AlphaMonitor) :
    (compute sqrtFn cfg md a).distance_ratio =
      distance_ratio_of (compute sqrtFn cfg md a).btc_vs_strike
        (compute sqrtFn cfg md a).expected_move := rfl

theorem compute_yes_time_factor (sqrtFn : ℚ → ℚ) (cfg : Config) (md : MarketData)
    (a : AlphaMonitor) :
    (compute sqrtFn cfg md a).yes_time_factor =
      (directional_factors (compute sqrtFn cfg md a).btc_vs_strike
        (time_factors (compute sqrtFn cfg md a).distance_ratio
          (compute sqrtFn cfg md a).raw_time_factor)).1 := rfl

theorem compute_no_time_factor (sqrtFn : ℚ → ℚ) (cfg : Config) (md : MarketData)
    (a : AlphaMonitor) :
    (compute sqrtFn cfg md a).no_time_factor =
      (directional_factors (compute sqrtFn cfg md a).btc_vs_strike
        (time_factors (compute sqrtFn cfg md a).distance_ratio
          (compute sqrtFn cfg md a).raw_time_factor)).2 := rfl

theorem compute_yes_edge (sqrtFn : ℚ → ℚ) (cfg : Config) (md : MarketData) (a : AlphaMonitor) :
    (compute sqrtFn cfg md a).yes_edge =
      (compute sqrtFn cfg md a).fair_yes_cents - md.best_ask.getD 100 := rfl

theorem compute_no_edge (sqrtFn : ℚ → ℚ) (cfg : Config) (md : MarketData) (a : AlphaMonitor) :
    (compute sqrtFn cfg md a).no_edge =
      (100 - (compute sqrtFn cfg md a).fair_yes_cents) - (100 - md.best_bid.getD 0) := rfl

theorem compute_yes_score (sqrtFn : ℚ → ℚ) (cfg : Config) (md : MarketData) (a : AlphaMonitor) :
    (compute sqrtFn cfg md a).yes_score =
      side_score (compute sqrtFn cfg md a).yes_edge (compute sqrtFn cfg md a).min_edge
        (compute sqrtFn cfg md a).trend_confirms_yes (compute sqrtFn cfg md a).high_vol_bonus
        (compute sqrtFn cfg md a).yes_time_factor := rfl

theorem compute_no_score (sqrtFn : ℚ → ℚ) (cfg : Config) (md : MarketData) (a : AlphaMonitor) :
    (compute sqrtFn cfg md a).no_score =
      side_score (compute sqrtFn cfg md a).no_edge (compute sqrtFn cfg md a).min_edge
        (compute sqrtFn cfg md a).trend_confirms_no (compute sqrtFn cfg md a).high_vol_bonus
        (compute sqrtFn cfg md a).no_time_factor := rfl

theorem compute_best_potential (sqrtFn : ℚ → ℚ) (cfg : Config) (md : MarketData)
    (a : AlphaMonitor) :
    (compute sqrtFn cfg md a).best_potential =
      max (potential_conf (compute sqrtFn cfg md a).yes_edge
            (compute sqrtFn cfg md a).yes_time_factor)
          (potential_conf (compute sqrtFn cfg md a).no_edge
            (compute sqrtFn cfg md a).no_time_factor) := rfl

/-! Bounds on the time factors and on the diagnostic confidences. -/

theorem raw_time_factor_nonneg (s : ℚ) : 0 ≤ raw_time_factor_of s :=
  le_min (by norm_num) (le_max_left 0 _)

theorem raw_time_factor_le_one (s : ℚ) : raw_time_factor_of s ≤ 1 := min_le_left _ _

theorem time_factors_nonneg (dr rtf : ℚ) (h0 : 0 ≤ rtf) (h1 : rtf ≤ 1) :
    0 ≤ (time_factors dr rtf).1 ∧ 0 ≤ (time_factors dr rtf).2 := by
  unfold time_factors
  split_ifs <;> constructor <;> dsimp only <;> nlinarith

theorem directional_factors_nonneg (b : ℚ) (f : ℚ × ℚ) (h1 : 0 ≤ f.1) (h2 : 0 ≤ f.2) :
    0 ≤ (directional_factors b f).1 ∧ 0 ≤ (directional_factors b f).2 := by
  unfold directional_factors
  split_ifs <;> exact ⟨by assumption, by assumption⟩

theorem compute_time_factors_nonneg (sqrtFn : ℚ → ℚ) (cfg : Config) (md : MarketData)
    (a : AlphaMonitor) :
    0 ≤ (compute sqrtFn cfg md a).yes_time_factor ∧
      0 ≤ (compute sqrtFn cfg md a).no_time_factor := by
  rw [compute_yes_time_factor, compute_no_time_factor, compute_raw_time_factor]
  have h := time_factors_nonneg (compute sqrtFn cfg md a).distance_ratio
    (raw_time_factor_of (md.seconds_to_close.getD 0))
    (raw_time_factor_nonneg _) (raw_time_factor_le_one _)
  exact directional_factors_nonneg _ _ h.1 h.2

theorem potential_conf_bounds (e : ℤ) (tf : ℚ) (h : 0 ≤ tf) :
    0 ≤ potential_conf e tf ∧ potential_conf e tf ≤ 0.95 := by
  unfold potential_conf
  split_ifs with he
  · constructor
    · have hm : (0 : ℚ) ≤ max 0 ((e : ℚ) / 100) * tf :=
        mul_nonneg (le_max_left 0 _) h
      exact le_min (by norm_num) (by linarith)
    · exact min_le_left _ _
  · norm_num

theorem compute_best_potential_bounds (sqrtFn : ℚ → ℚ) (cfg : Config) (md : MarketData)
    (a : AlphaMonitor) :
    0 ≤ (compute sqrtFn cfg md a).best_potential ∧
      (compute sqrtFn cfg md a).best_potential ≤ 0.95 := by
  rw [compute_best_potential]
  have htf := compute_time_factors_nonneg sqrtFn cfg md a
  have hy := potential_conf_bounds (compute sqrtFn cfg md a).yes_edge _ htf.1
  have hn := potential_conf_bounds (compute sqrtFn cfg md a).no_edge _ htf.2
  exact ⟨le_max_of_le_left hy.1, max_le hy.2 hn.2⟩

/-! Small facts about the hold and emit helpers. -/

theorem hold_result_confidence (pc : List ProviderCall) (r : Reasoning) (conf : ℚ) :
    (hold_result pc r conf).result.confidence = conf := rfl

theorem hold_result_decision (pc : List ProviderCall) (r : Reasoning) (conf : ℚ) :
    (hold_result pc r conf).result.decision = Action.HOLD := rfl

theorem emit_result_confidence (cfg : Config) (pc : List ProviderCall) (mid : Option String)
    (d : Action) (conf : ℚ) (rs : List ReasonLine) :
    (emit_result cfg pc mid d conf rs).result.confidence = conf := by
  unfold emit_result
  split_ifs <;> rfl

theorem emit_result_decision_below_gate (cfg : Config) (pc : List ProviderCall)
    (mid : Option String) (d : Action) (conf : ℚ) (rs : List ReasonLine)
    (h : conf < cfg.RULE_MIN_CONFIDENCE) :
    (emit_result cfg pc mid d conf rs).result.decision = Action.HOLD := by
  unfold emit_result
  rw [if_pos h]
  rfl

theorem emit_result_decision_cases (cfg : Config) (pc : List ProviderCall)
    (mid : Option String) (d : Action) (conf : ℚ) (rs : List ReasonLine) :
    (emit_result cfg pc mid d conf rs).result.decision = Action.HOLD ∨
      ((emit_result cfg pc mid d conf rs).result.decision = d ∧
        cfg.RULE_MIN_CONFIDENCE ≤ conf) := by
  unfold emit_result
  split_ifs with h
  · exact Or.inl rfl
  · exact Or.inr ⟨rfl, le_of_not_lt h⟩

/-- C1: for every input (any snapshot, any provider values, any configuration,
any square root primitive), the confidence of the dict returned by
analyze_market lies in the interval [0, 0.95], on every path: the guard HOLD,
the low volatility HOLD, the no edge HOLD with its diagnostic best potential
confidence, the confidence gate HOLD, and the BUY_YES and BUY_NO emissions. -/
theorem analyze_market_confidence_mem_range (sqrtFn : ℚ → ℚ) (cfg : Config)
    (md : MarketData) (am : Option AlphaMonitor) :
    0 ≤ (analyze_market sqrtFn cfg md am).result.confidence ∧
      (analyze_market sqrtFn cfg md am).result.confidence ≤ 0.95 := by
  cases am with
  | none =>
    constructor <;> norm_num [analyze_market, hold_result]
  | some a =>
    have hbp := compute_best_potential_bounds sqrtFn cfg md a
    show 0 ≤ (analyze_with sqrtFn cfg md a).result.confidence ∧
      (analyze_with sqrtFn cfg md a).result.confidence ≤ 0.95
    simp only [analyze_with]
    split_ifs with h1 h2 h3 h4
    · constructor <;> norm_num [hold_result]
    · constructor <;> norm_num [hold_result]
    · rw [emit_result_confidence]
      refine ⟨le_min (by norm_num) ?_, min_le_left _ _⟩
      have := h3.2
      linarith
    · rw [emit_result_confidence]
      refine ⟨le_min (by norm_num) ?_, min_le_left _ _⟩
      have := h4.2
      linarith
    · rw [hold_result_confidence]
      exact hbp

theorem vol_floor_eq_spec (v : ℚ) : vol_floor v = spec_vol_floor v := by
  unfold vol_floor spec_vol_floor
  split_ifs <;> first | rfl | linarith

theorem raw_time_factor_eq_spec (s : ℚ) :
    raw_time_factor_of s = spec_raw_time_factor s := by
  unfold raw_time_factor_of spec_raw_time_factor clamp
  rw [min_max_distrib_left]
  norm_num

theorem distance_ratio_eq_spec (b em : ℚ) :
    distance_ratio_of b em = spec_distance_ratio b em := by
  unfold distance_ratio_of spec_distance_ratio clamp
  have hpos : (0 : ℚ) < max em 50 := lt_of_lt_of_le (by norm_num) (le_max_right em 50)
  have hy : 0 ≤ |b| / max em 50 := div_nonneg (abs_nonneg b) hpos.le
  rw [max_eq_right (le_min (by norm_num) hy)]

theorem distance_ratio_mem_range (b em : ℚ) :
    0 ≤ distance_ratio_of b em ∧ distance_ratio_of b em ≤ 10 := by
  unfold distance_ratio_of
  have hpos : (0 : ℚ) < max em 50 := lt_of_lt_of_le (by norm_num) (le_max_right em 50)
  exact ⟨le_min (by norm_num) (div_nonneg (abs_nonneg b) hpos.le), min_le_left _ _⟩

theorem time_factors_eq_spec (dr rtf : ℚ) :
    time_factors dr rtf = spec_time_factors dr rtf := by
  unfold time_factors spec_time_factors
  norm_num

/-- C8: on every input the time-decay computation of analyze_market satisfies
the formulas of the spec: the volatility magnitude is replaced by 200 exactly
when the observed value is below 50; expected_move is the floored magnitude
times sqrt(max(seconds_left, 1) / 60); distance_ratio is
abs(btc_vs_strike) / max(expected_move, 50) clamped into [0, 10], so it stays
in that interval for arbitrarily large distances; and the
(winning_boost, losing_factor) pair follows the three regime table with
thresholds 1.5 and 1.0. -/
theorem time_decay_matches_spec_formulas (sqrtFn : ℚ → ℚ) (cfg : Config)
    (md : MarketData) (a : AlphaMonitor) :
    vol_floor a.get_volatility.vol_dollar_per_min =
        spec_vol_floor a.get_volatility.vol_dollar_per_min ∧
      (compute sqrtFn cfg md a).raw_time_factor =
        spec_raw_time_factor (compute sqrtFn cfg md a).secs_left ∧
      (compute sqrtFn cfg md a).expected_move =
        spec_expected_move sqrtFn
          (spec_vol_floor a.get_volatility.vol_dollar_per_min)
          (compute sqrtFn cfg md a).secs_left ∧
      (compute sqrtFn cfg md a).distance_ratio =
        spec_distance_ratio (compute sqrtFn cfg md a).btc_vs_strike
          (compute sqrtFn cfg md a).expected_move ∧
      0 ≤ (compute sqrtFn cfg md a).distance_ratio ∧
      (compute sqrtFn cfg md a).distance_ratio ≤ 10 ∧
      time_factors (compute sqrtFn cfg md a).distance_ratio
          (compute sqrtFn cfg md a).raw_time_factor =
        spec_time_factors (compute sqrtFn cfg md a).distance_ratio
          (compute sqrtFn cfg md a).raw_time_factor := by
  refine ⟨vol_floor_eq_spec _, ?_, ?_, ?_, ?_, ?_, time_factors_eq_spec _ _⟩
  · rw [compute_raw_time_factor, compute_secs_left]
    exact raw_time_factor_eq_spec _
  · rw [compute_expected_move, compute_secs_left, vol_floor_eq_spec]
    rfl
  · rw [compute_distance_ratio]
    exact distance_ratio_eq_spec _ _
  · rw [compute_distance_ratio]
    exact (distance_ratio_mem_range _ _).1
  · rw [compute_distance_ratio]
    exact (distance_ratio_mem_range _ _).2

theorem losing_le_winning (dr rtf : ℚ) (h0 : 0 ≤ rtf) (h1 : rtf ≤ 1) :
    (time_factors dr rtf).2 ≤ (time_factors dr rtf).1 := by
  unfold time_factors
  split_ifs <;> dsimp only <;> nlinarith

/-- C5: for every distance_ratio and every raw_time_factor in [0, 1], if
btc_vs_strike is positive then yes_time_factor is at least no_time_factor, and
if btc_vs_strike is negative then no_time_factor is at least yes_time_factor,
in each of the three distance regimes. -/
theorem directional_time_factor_consistency (dr rtf btc : ℚ)
    (h0 : 0 ≤ rtf) (h1 : rtf ≤ 1) :
    (0 < btc →
      (directional_factors btc (time_factors dr rtf)).2 ≤
        (directional_factors btc (time_factors dr rtf)).1) ∧
    (btc < 0 →
      (directional_factors btc (time_factors dr rtf)).1 ≤
        (directional_factors btc (time_factors dr rtf)).2) := by
  have hwl := losing_le_winning dr rtf h0 h1
  unfold directional_factors
  constructor <;> intro hb <;> split_ifs with hpos
  · exact hwl
  · exact absurd hb hpos
  · exact absurd hpos (by linarith)
  · exact hwl

/-- Witness for C5 at distance_ratio 2, raw_time_factor one half, and
btc_vs_strike 5 and -5. -/
theorem directional_time_factor_consistency_witness :
    (directional_factors 5 (time_factors 2 (1/2))).2 ≤
      (directional_factors 5 (time_factors 2 (1/2))).1 ∧
    (directional_factors (-5) (time_factors 2 (1/2))).1 ≤
      (directional_factors (-5) (time_factors 2 (1/2))).2 :=
  ⟨(directional_time_factor_consistency 2 (1/2) 5 (by norm_num) (by norm_num)).1
      (by norm_num),
   (directional_time_factor_consistency 2 (1/2) (-5) (by norm_num) (by norm_num)).2
      (by norm_num)⟩

/-- C6: whenever the sit-out flag is enabled and the provider (if present)
reports the low volatility regime, analyze_market returns HOLD, however large
the computed edge would have been. -/
theorem low_vol_sit_out_forces_hold (sqrtFn : ℚ → ℚ) (cfg : Config)
    (md : MarketData) (am : Option AlphaMonitor)
    (hflag : cfg.RULE_SIT_OUT_LOW_VOL = true)
    (hreg : ∀ a, am = some a → a.get_volatility.regime = Regime.low) :
    (analyze_market sqrtFn cfg md am).result.decision = Action.HOLD := by
  cases am with
  | none => rfl
  | some a =>
    show (analyze_with sqrtFn cfg md a).result.decision = Action.HOLD
    simp only [analyze_with]
    split_ifs with h1 h2 h3 h4
    · rfl
    · rfl
    all_goals exact absurd ⟨hflag, hreg a rfl⟩ h2

/-- Witness for C6: Scenario B, the Scenario A snapshot with a 10-cent YES edge
but a low volatility regime and the sit-out flag enabled, still holds. -/
theorem low_vol_sit_out_forces_hold_witness :
    (analyze_market sqrtC cfgA mdA (some alphaLow)).result.decision = Action.HOLD :=
  low_vol_sit_out_forces_hold sqrtC cfgA mdA (some alphaLow) rfl
    (fun a ha => by cases ha; rfl)

/-- C7: when the provider is absent or the strike is missing or non-positive,
analyze_market returns HOLD with confidence exactly 0 and the fixed diagnostic
reason, and consults no provider method. -/
theorem guard_hold_no_provider_calls (sqrtFn : ℚ → ℚ) (cfg : Config)
    (md : MarketData) (am : Option AlphaMonitor)
    (h : am = none ∨ md.strike_price.getD 0 ≤ 0) :
    (analyze_market sqrtFn cfg md am).result =
        ⟨Action.HOLD, 0, Reasoning.noAlpha⟩ ∧
      (analyze_market sqrtFn cfg md am).provider_calls = [] := by
  rcases h with h | h
  · subst h
    exact ⟨rfl, rfl⟩
  · cases am with
    | none => exact ⟨rfl, rfl⟩
    | some a =>
      show (analyze_with sqrtFn cfg md a).result = _ ∧
        (analyze_with sqrtFn cfg md a).provider_calls = []
      unfold analyze_with
      rw [if_pos h]
      exact ⟨rfl, rfl⟩

/-- Witness for C7 at an absent provider. -/
theorem guard_hold_no_provider_calls_witness :
    (analyze_market sqrtC cfgA mdA none).result =
        ⟨Action.HOLD, 0, Reasoning.noAlpha⟩ ∧
      (analyze_market sqrtC cfgA mdA none).provider_calls = [] :=
  guard_hold_no_provider_calls sqrtC cfgA mdA none (Or.inl rfl)

/-- C9: on every call, last_decision is overwritten with the returned dict; on
a HOLD only the logging collaborator is notified (the persistence trace is
empty), and on a BUY_YES or BUY_NO the persistence collaborator is notified
with the contract id, decision, confidence and reasoning and the logging
collaborator with the trade message. -/
theorem emission_effects_by_decision (sqrtFn : ℚ → ℚ) (cfg : Config)
    (md : MarketData) (am : Option AlphaMonitor) :
    (analyze_market sqrtFn cfg md am).last_decision =
        (analyze_market sqrtFn cfg md am).result ∧
      ((analyze_market sqrtFn cfg md am).result.decision = Action.HOLD →
        (analyze_market sqrtFn cfg md am).records = [] ∧
          (analyze_market sqrtFn cfg md am).logs =
            [⟨"RULES", LogMsg.hold (analyze_market sqrtFn cfg md am).result.reasoning⟩]) ∧
      ((analyze_market sqrtFn cfg md am).result.decision ≠ Action.HOLD →
        (analyze_market sqrtFn cfg md am).records =
            [⟨md.ticker, (analyze_market sqrtFn cfg md am).result.decision,
              (analyze_market sqrtFn cfg md am).result.confidence,
              (analyze_market sqrtFn cfg md am).result.reasoning⟩] ∧
          (analyze_market sqrtFn cfg md am).logs =
            [⟨"RULES",
              LogMsg.trade (analyze_market sqrtFn cfg md am).result.decision
                (analyze_market sqrtFn cfg md am).result.confidence
                (analyze_market sqrtFn cfg md am).result.reasoning⟩]) := by
  cases am with
  | none => exact ⟨rfl, fun _ => ⟨rfl, rfl⟩, fun h => absurd rfl h⟩
  | some a =>
    show (analyze_with sqrtFn cfg md a).last_decision = _ ∧ _ ∧ _
    simp only [analyze_market, analyze_with]
    split_ifs with h1 h2 h3 h4
    · exact ⟨rfl, fun _ => ⟨rfl, rfl⟩, fun h => absurd rfl h⟩
    · exact ⟨rfl, fun _ => ⟨rfl, rfl⟩, fun h => absurd rfl h⟩
    · unfold emit_result
      split_ifs with hg
      · exact ⟨rfl, fun _ => ⟨rfl, rfl⟩, fun h => absurd rfl h⟩
      · exact ⟨rfl, fun hd => hd.elim, fun _ => ⟨rfl, rfl⟩⟩
    · unfold emit_result
      split_ifs with hg
      · exact ⟨rfl, fun _ => ⟨rfl, rfl⟩, fun h => absurd rfl h⟩
      · exact ⟨rfl, fun hd => hd.elim, fun _ => ⟨rfl, rfl⟩⟩
    · exact ⟨rfl, fun _ => ⟨rfl, rfl⟩, fun h => absurd rfl h⟩

/-- Scenario A of the spec evaluates to BUY_YES on the closed instances; shared
by the witnesses below. -/
theorem scenarioA_buy_yes :
    (analyze_market sqrtC cfgA mdA (some alphaA)).result.decision = Action.BUY_YES := by
  simp only [analyze_market, analyze_with, compute, hold_result, emit_result,
    provider_calls_of, pre_edge_reasons, edge_reasons, raw_time_factor_of, vol_floor,
    expected_move_of, distance_ratio_of, time_factors, directional_factors, side_score,
    potential_conf, mdA, cfgA, alphaA, sqrtC]
  simp
  norm_num

/-- Witness for C9: on Scenario A (a BUY_YES emission) the persistence and
logging collaborators receive the decision, confidence and reasoning. -/
theorem emission_effects_by_decision_witness :
    (analyze_market sqrtC cfgA mdA (some alphaA)).records =
        [⟨mdA.ticker, (analyze_market sqrtC cfgA mdA (some alphaA)).result.decision,
          (analyze_market sqrtC cfgA mdA (some alphaA)).result.confidence,
          (analyze_market sqrtC cfgA mdA (some alphaA)).result.reasoning⟩] ∧
      (analyze_market sqrtC cfgA mdA (some alphaA)).logs =
        [⟨"RULES",
          LogMsg.trade (analyze_market sqrtC cfgA mdA (some alphaA)).result.decision
            (analyze_market sqrtC cfgA mdA (some alphaA)).result.confidence
            (analyze_market sqrtC cfgA mdA (some alphaA)).result.reasoning⟩] :=
  (emission_effects_by_decision sqrtC cfgA mdA (some alphaA)).2.2
    (by rw [scenarioA_buy_yes]; exact fun h => Action.noConfusion h)

theorem analyze_with_non_hold_gate (sqrtFn : ℚ → ℚ) (cfg : Config) (md : MarketData)
    (a : AlphaMonitor)
    (h : (analyze_with sqrtFn cfg md a).result.decision ≠ Action.HOLD) :
    0.45 < (analyze_with sqrtFn cfg md a).result.confidence ∧
      cfg.RULE_MIN_CONFIDENCE ≤ (analyze_with sqrtFn cfg md a).result.confidence := by
  revert h
  simp only [analyze_with]
  split_ifs with h1 h2 h3 h4
  · intro h
    exact absurd rfl h
  · intro h
    exact absurd rfl h
  · unfold emit_result
    split_ifs with hg
    · intro h
      exact absurd rfl h
    · intro h
      have hy := h3.2
      exact ⟨lt_min (by norm_num) (by linarith), not_lt.mp hg⟩
  · unfold emit_result
    split_ifs with hg
    · intro h
      exact absurd rfl h
    · intro h
      have hn := h4.2
      exact ⟨lt_min (by norm_num) (by linarith), not_lt.mp hg⟩
  · intro h
    exact absurd rfl h

/-- C10: whenever analyze_market returns BUY_YES or BUY_NO, the confidence is
strictly greater than 0.45 and at least the configured minimum confidence. -/
theorem non_hold_confidence_above_gate (sqrtFn : ℚ → ℚ) (cfg : Config)
    (md : MarketData) (am : Option AlphaMonitor)
    (h : (analyze_market sqrtFn cfg md am).result.decision ≠ Action.HOLD) :
    0.45 < (analyze_market sqrtFn cfg md am).result.confidence ∧
      cfg.RULE_MIN_CONFIDENCE ≤ (analyze_market sqrtFn cfg md am).result.confidence := by
  cases am with
  | none => exact absurd rfl h
  | some a => exact analyze_with_non_hold_gate sqrtFn cfg md a h

/-- Witness for C10 on Scenario A: the emitted BUY_YES carries confidence above
0.45 and above the configured 0.6 gate. -/
theorem non_hold_confidence_above_gate_witness :
    0.45 < (analyze_market sqrtC cfgA mdA (some alphaA)).result.confidence ∧
      cfgA.RULE_MIN_CONFIDENCE ≤
        (analyze_market sqrtC cfgA mdA (some alphaA)).result.confidence :=
  non_hold_confidence_above_gate sqrtC cfgA mdA (some alphaA)
    (by rw [scenarioA_buy_yes]; exact fun h => Action.noConfusion h)

theorem side_score_le_of_edge_le (edge min_edge : ℤ) (tc hb : Bool) (tf : ℚ)
    (htf : 0 ≤ tf) (hedge : (edge : ℚ) ≤ 100) :
    side_score edge min_edge tc hb tf ≤ 1.15 * tf := by
  unfold side_score
  have h100 : (edge : ℚ) / 100 ≤ 1 := by linarith
  split_ifs
  · exact mul_le_mul_of_nonneg_right (by linarith) htf
  · exact mul_le_mul_of_nonneg_right (by linarith) htf
  · exact mul_le_mul_of_nonneg_right (by linarith) htf
  · exact mul_nonneg (by norm_num) htf

theorem emit_result_decision_ne (cfg : Config) (pc : List ProviderCall)
    (mid : Option String) (d : Action) (conf : ℚ) (rs : List ReasonLine)
    (hd : d ≠ Action.BUY_NO) :
    (emit_result cfg pc mid d conf rs).result.decision ≠ Action.BUY_NO := by
  unfold emit_result
  split_ifs
  · exact fun h => Action.noConfusion h
  · exact hd

theorem emit_result_decision_ne_of_lt (cfg : Config) (pc : List ProviderCall)
    (mid : Option String) (d : Action) (conf : ℚ) (rs : List ReasonLine)
    (h : conf < cfg.RULE_MIN_CONFIDENCE) :
    (emit_result cfg pc mid d conf rs).result.decision ≠ Action.BUY_NO := by
  rw [emit_result_decision_below_gate cfg pc mid d conf rs h]
  exact fun hh => Action.noConfusion hh

/-- C2 amended: with seconds_left = 10, btc_vs_strike positive and
distance_ratio above 1.5, the NO time factor is exactly 0.3 times 10/900, so
the NO score cannot exceed 1.15 times 1/300; provided the provider values stay
in their documented ranges (fair_yes_cents at least 0, best_bid at most 100)
and the configured minimum confidence is at least 0.46 (the default is 0.6),
the confidence gate blocks every BUY_NO, so the result is BUY_YES or HOLD.
With the minimum confidence at the bottom of its validated range (0.3) a
BUY_NO can be emitted; see the counterexample. -/
theorem scenario_c_gate_blocks_buy_no (sqrtFn : ℚ → ℚ) (cfg : Config)
    (md : MarketData) (a : AlphaMonitor)
    (hsecs : md.seconds_to_close = some 10)
    (hbid : md.best_bid.getD 0 ≤ 100)
    (hfair : 0 ≤ (compute sqrtFn cfg md a).fair_yes_cents)
    (hbtc : (compute sqrtFn cfg md a).btc_vs_strike > 0)
    (hdist : (compute sqrtFn cfg md a).distance_ratio > 1.5)
    (hgate : (0.46 : ℚ) ≤ cfg.RULE_MIN_CONFIDENCE) :
    (analyze_market sqrtFn cfg md (some a)).result.decision ≠ Action.BUY_NO := by
  have hrtf : (compute sqrtFn cfg md a).raw_time_factor = 1 / 90 := by
    rw [compute_raw_time_factor, hsecs]
    unfold raw_time_factor_of
    norm_num [Option.getD]
  have hntf : (compute sqrtFn cfg md a).no_time_factor = 1 / 300 := by
    rw [compute_no_time_factor]
    unfold directional_factors
    rw [if_pos hbtc]
    dsimp only
    unfold time_factors
    rw [if_pos hdist]
    dsimp only
    rw [hrtf]
    norm_num
  have hedgeZ : (compute sqrtFn cfg md a).no_edge ≤ 100 := by
    rw [compute_no_edge]
    omega
  have hedgeQ : (((compute sqrtFn cfg md a).no_edge : ℤ) : ℚ) ≤ 100 := by
    exact_mod_cast hedgeZ
  have hns : (compute sqrtFn cfg md a).no_score ≤ 1.15 * (1 / 300) := by
    rw [compute_no_score, hntf]
    exact side_score_le_of_edge_le _ _ _ _ _ (by norm_num) hedgeQ
  show (analyze_with sqrtFn cfg md a).result.decision ≠ Action.BUY_NO
  simp only [analyze_with]
  split_ifs with h1 h2 h3 h4
  · exact fun h => Action.noConfusion h
  · exact fun h => Action.noConfusion h
  · exact emit_result_decision_ne cfg _ _ _ _ _ (fun h => Action.noConfusion h)
  · refine emit_result_decision_ne_of_lt cfg _ _ _ _ _ ?_
    have hmin := min_le_right (0.95 : ℚ) (0.45 + (compute sqrtFn cfg md a).no_score)
    calc min (0.95 : ℚ) (0.45 + (compute sqrtFn cfg md a).no_score)
        ≤ 0.45 + (compute sqrtFn cfg md a).no_score := hmin
      _ < 0.46 := by linarith
      _ ≤ cfg.RULE_MIN_CONFIDENCE := hgate
  · exact fun h => Action.noConfusion h

/-- Witness for the amended C2: Scenario C with the default 0.6 gate cannot
return BUY_NO. -/
theorem scenario_c_gate_blocks_buy_no_witness :
    (analyze_market sqrtC cfgA mdScenC (some alphaScenC)).result.decision ≠
      Action.BUY_NO :=
  scenario_c_gate_blocks_buy_no sqrtC cfgA mdScenC alphaScenC rfl
    (by norm_num [mdScenC])
    (by norm_num [compute, mdScenC, alphaScenC])
    (by norm_num [compute, mdScenC, alphaScenC])
    (by norm_num [compute, mdScenC, alphaScenC, sqrtC, cfgA, distance_ratio_of,
      expected_move_of, vol_floor])
    (by norm_num [cfgA])

/-- Counterexample to C2 as stated: with the minimum confidence configured at
0.3 (the bottom of the validated range of src/config.py line 141), seconds_left
10, btc_vs_strike 1000 (distance_ratio 10, above 1.5) and a positive NO edge of
49 cents, analyze_market returns BUY_NO. -/
theorem buy_no_emitted_at_low_min_confidence :
    (analyze_market sqrtC cfgGate03 mdScenC (some alphaScenC)).result.decision =
        Action.BUY_NO ∧
      mdScenC.seconds_to_close = some 10 ∧
      (compute sqrtC cfgGate03 mdScenC alphaScenC).btc_vs_strike > 0 ∧
      (compute sqrtC cfgGate03 mdScenC alphaScenC).distance_ratio > 1.5 ∧
      (compute sqrtC cfgGate03 mdScenC alphaScenC).no_edge > 0 := by
  refine ⟨?_, rfl, ?_, ?_, ?_⟩
  · simp only [analyze_market, analyze_with, compute, hold_result, emit_result,
      provider_calls_of, pre_edge_reasons, edge_reasons, raw_time_factor_of, vol_floor,
      expected_move_of, distance_ratio_of, time_factors, directional_factors, side_score,
      potential_conf, mdScenC, cfgGate03, alphaScenC, sqrtC]
    simp
    norm_num
  · norm_num [compute, mdScenC, alphaScenC]
  · norm_num [compute, mdScenC, alphaScenC, sqrtC, cfgGate03, distance_ratio_of,
      expected_move_of, vol_floor]
  · norm_num [compute, mdScenC, alphaScenC]

/-- C3 amended: when the low volatility sit-out fires (flag enabled, regime
low, strike positive so the guard passes), the HOLD is returned before the
edge scores are used for a decision, and its reasoning consists exactly of the
five pre-edge lines: the BTC-vs-strike, fair value, volatility, trend and time
lines appear, while the YES and NO edge lines, which the source computes only
after the sit-out check, do not appear. -/
theorem sit_out_hold_reasoning_content (sqrtFn : ℚ → ℚ) (cfg : Config)
    (md : MarketData) (a : AlphaMonitor)
    (hstrike : 0 < md.strike_price.getD 0)
    (hflag : cfg.RULE_SIT_OUT_LOW_VOL = true)
    (hreg : a.get_volatility.regime = Regime.low) :
    (analyze_market sqrtFn cfg md (some a)).result.decision = Action.HOLD ∧
      (analyze_market sqrtFn cfg md (some a)).result.reasoning =
        Reasoning.lowVolSitOut (pre_edge_reasons (compute sqrtFn cfg md a)) ∧
      (analyze_market sqrtFn cfg md (some a)).result.reasoning.lines.any
        ReasonLine.isTrendLine = true ∧
      (analyze_market sqrtFn cfg md (some a)).result.reasoning.lines.all
        (fun l => ! l.isEdgeLine) = true := by
  have key : analyze_market sqrtFn cfg md (some a) =
      hold_result (provider_calls_of md)
        (Reasoning.lowVolSitOut (pre_edge_reasons (compute sqrtFn cfg md a))) 0 := by
    show analyze_with sqrtFn cfg md a = _
    simp only [analyze_with]
    rw [if_neg (not_le.mpr hstrike), if_pos ⟨hflag, hreg⟩]
  rw [key]
  refine ⟨rfl, rfl, ?_, ?_⟩
  · simp [hold_result, Reasoning.lines, pre_edge_reasons, ReasonLine.isTrendLine]
  · simp [hold_result, Reasoning.lines, pre_edge_reasons, ReasonLine.isEdgeLine]

/-- Witness for the amended C3 on the Scenario B instance. -/
theorem sit_out_hold_reasoning_content_witness :
    (analyze_market sqrtC cfgA mdA (some alphaLow)).result.decision = Action.HOLD ∧
      (analyze_market sqrtC cfgA mdA (some alphaLow)).result.reasoning =
        Reasoning.lowVolSitOut (pre_edge_reasons (compute sqrtC cfgA mdA alphaLow)) ∧
      (analyze_market sqrtC cfgA mdA (some alphaLow)).result.reasoning.lines.any
        ReasonLine.isTrendLine = true ∧
      (analyze_market sqrtC cfgA mdA (some alphaLow)).result.reasoning.lines.all
        (fun l => ! l.isEdgeLine) = true :=
  sit_out_hold_reasoning_content sqrtC cfgA mdA alphaLow (by norm_num [mdA]) rfl rfl

/-- Counterexample to C3 as stated: on a concrete sit-out HOLD the returned
reasoning is non-empty yet contains no YES or NO edge line, because the source
appends those lines only after the sit-out check (src/agent.py lines 109 to
119); so the edge reasoning lines do not appear in the returned trace. -/
theorem sit_out_reasoning_lacks_edge_lines :
    (analyze_market sqrtC cfgA mdA (some alphaLow)).result.decision = Action.HOLD ∧
      (analyze_market sqrtC cfgA mdA (some alphaLow)).result.reasoning.lines ≠ [] ∧
      (analyze_market sqrtC cfgA mdA (some alphaLow)).result.reasoning.lines.all
        (fun l => ! l.isEdgeLine) = true := by
  refine ⟨?_, ?_, ?_⟩ <;>
    simp only [analyze_market, analyze_with, compute, hold_result, emit_result,
      provider_calls_of, pre_edge_reasons, edge_reasons, raw_time_factor_of, vol_floor,
      expected_move_of, distance_ratio_of, time_factors, directional_factors, side_score,
      potential_conf, Reasoning.lines, ReasonLine.isEdgeLine, mdA, cfgA, alphaLow, sqrtC]
  · simp
    norm_num
  · simp
    norm_num
    exact List.cons_ne_nil _ _
  · simp
    norm_num

theorem compute_min_edge (sqrtFn : ℚ → ℚ) (cfg : Config) (md : MarketData)
    (a : AlphaMonitor) :
    (compute sqrtFn cfg md a).min_edge =
      (if a.get_volatility.regime = Regime.high then max 3 (cfg.MIN_EDGE_CENTS - 3)
       else cfg.MIN_EDGE_CENTS) := rfl

theorem compute_min_edge_nonneg (sqrtFn : ℚ → ℚ) (cfg : Config) (md : MarketData)
    (a : AlphaMonitor) (hme : 0 ≤ cfg.MIN_EDGE_CENTS) :
    0 ≤ (compute sqrtFn cfg md a).min_edge := by
  rw [compute_min_edge]
  split_ifs
  · exact le_trans (by norm_num) (le_max_left _ _)
  · exact hme

theorem side_score_mono_edge (e1 e2 min_edge : ℤ) (tc hb : Bool) (tf : ℚ)
    (htf : 0 ≤ tf) (hme : 0 ≤ min_edge) (h : e2 ≤ e1) :
    side_score e2 min_edge tc hb tf ≤ side_score e1 min_edge tc hb tf := by
  unfold side_score
  have hc : ((e2 : ℚ)) ≤ (e1 : ℚ) := by exact_mod_cast h
  generalize hB : (if tc = true then (0.10 : ℚ) + (if hb = true then 0.05 else 0) else 0) = b
  have hb0 : 0 ≤ b := by
    rw [← hB]
    split_ifs <;> norm_num
  split_ifs with h2 h1 h3
  · exact mul_le_mul_of_nonneg_right (by linarith) htf
  · exact absurd (le_trans h2 h) h1
  · have he1 : (0 : ℚ) ≤ (e1 : ℚ) := by exact_mod_cast le_trans hme h3
    exact mul_nonneg (by linarith) htf
  · exact le_rfl

/-- C4 amended: holding the strike, seconds, best bid, provider values and the
rest of the configuration fixed, and with MIN_EDGE_CENTS non-negative (which
holds for every validated configuration, whose range is 1 to 30), decreasing
best_ask never decreases yes_score, including across the minimum edge
threshold where the score jumps from 0 to a non-negative value.  With a
negative MIN_EDGE_CENTS the monotonicity fails; see the counterexample. -/
theorem yes_score_antitone_in_best_ask (sqrtFn : ℚ → ℚ) (cfg : Config)
    (md : MarketData) (a : AlphaMonitor) (a1 a2 : ℤ)
    (hme : 0 ≤ cfg.MIN_EDGE_CENTS) (h12 : a1 ≤ a2) :
    (compute sqrtFn cfg { md with best_ask := some a2 } a).yes_score ≤
      (compute sqrtFn cfg { md with best_ask := some a1 } a).yes_score := by
  have hedge : (compute sqrtFn cfg { md with best_ask := some a2 } a).yes_edge ≤
      (compute sqrtFn cfg { md with best_ask := some a1 } a).yes_edge := by
    have e2eq : (compute sqrtFn cfg { md with best_ask := some a2 } a).yes_edge =
        (compute sqrtFn cfg { md with best_ask := some a1 } a).fair_yes_cents - a2 := rfl
    have e1eq : (compute sqrtFn cfg { md with best_ask := some a1 } a).yes_edge =
        (compute sqrtFn cfg { md with best_ask := some a1 } a).fair_yes_cents - a1 := rfl
    rw [e2eq, e1eq]
    omega
  have htf := (compute_time_factors_nonneg sqrtFn cfg { md with best_ask := some a1 } a).1
  have hme1 := compute_min_edge_nonneg sqrtFn cfg { md with best_ask := some a1 } a hme
  rw [compute_yes_score, compute_yes_score]
  exact side_score_mono_edge
    (compute sqrtFn cfg { md with best_ask := some a1 } a).yes_edge
    (compute sqrtFn cfg { md with best_ask := some a2 } a).yes_edge
    (compute sqrtFn cfg { md with best_ask := some a1 } a).min_edge
    (compute sqrtFn cfg { md with best_ask := some a1 } a).trend_confirms_yes
    (compute sqrtFn cfg { md with best_ask := some a1 } a).high_vol_bonus
    (compute sqrtFn cfg { md with best_ask := some a1 } a).yes_time_factor
    htf hme1 hedge

/-- Witness for the amended C4 at the Scenario A inputs: lowering the ask from
45 to 40 does not decrease yes_score. -/
theorem yes_score_antitone_in_best_ask_witness :
    (compute sqrtC cfgA { mdA with best_ask := some 45 } alphaA).yes_score ≤
      (compute sqrtC cfgA { mdA with best_ask := some 40 } alphaA).yes_score :=
  yes_score_antitone_in_best_ask sqrtC cfgA mdA alphaA 40 45
    (by norm_num [cfgA]) (by norm_num)

/-- Counterexample to C4 as stated: with MIN_EDGE_CENTS set to -15 (reachable
through the unvalidated environment read of src/config.py line 96), lowering
best_ask from 66 to 65 moves yes_edge from -16 (below the threshold, score 0)
to -15 (at the threshold), and the score becomes negative: yes_score strictly
decreases although best_ask decreased. -/
theorem yes_score_not_monotone_with_negative_min_edge :
    (65 : ℤ) ≤ 66 ∧
      (compute sqrtC cfgNegEdge mdAsk65 alphaFlat).yes_score <
        (compute sqrtC cfgNegEdge mdAsk66 alphaFlat).yes_score := by
  constructor
  · norm_num
  · simp only [compute, mdAsk65, mdAsk66, alphaFlat, cfgNegEdge, sqrtC, side_score,
      directional_factors, time_factors, raw_time_factor_of, vol_floor, expected_move_of,
      distance_ratio_of, potential_conf]
    simp
    norm_num

end Prediction
